import Mathlib

/-!
Verification of the client-side countdown timer engine (`timer.js`).

The definitions below are a shallow embedding of the storefront script:

* machine time is modelled as `Int` epoch milliseconds (`Date.now()`),
* the durable (`localStorage`) and session (`sessionStorage`) stores are
  modelled as explicit values threaded through the functions that read and
  write them, with the `safeGet`/`safeSet` wrappers absorbed into ordinary
  reads and writes of that explicit state,
* JavaScript truthiness tests on nullable numbers (`!x`, `x && …`,
  `x || 0`) are modelled on `Option Int` with `none` for `null`/missing and
  `some 0` for the numeric value `0`, both of which are falsy,
* strings that are only compared, concatenated or pattern-matched are kept
  as `String` or `List Char`,
* the outcome of one `fetch` of the analytics endpoint is a `FetchOutcome`:
  an `ok` response, a non-ok response with an HTTP status whose error body
  may or may not be readable (the code reads it with `response.text()`,
  which can reject), or a network-level failure.
-/

-- ============================================================================
-- Time utilities (timer.js: parseTimeToMinutes, padZero)
-- ============================================================================

/-- Splitting a character list at a separator, the model of
JavaScript's `String.prototype.split` with a single-character separator. -/
def splitOnChar (sep : Char) : List Char → List (List Char)
  | [] => [[]]
  | c :: rest =>
    let r := splitOnChar sep rest
    if c = sep then [] :: r
    else
      match r with
      | [] => [[c]]
      | w :: ws => (c :: w) :: ws

/-- Decimal parsing of a digit string, the model of JavaScript `Number(s)`
for the strings this code feeds it ("22", "00", …). `Number("") = 0` is kept;
a string with a non-digit character yields `NaN` in JavaScript, modelled
here as `0` (no claim exercises a malformed component). -/
def parseNumber (cs : List Char) : Nat :=
  if cs.all (fun c => c.isDigit) then
    cs.foldl (fun acc c => acc * 10 + (c.toNat - 48)) 0
  else 0

/-- Model of `parseTimeToMinutes(timeStr)`: `null`/empty is falsy and yields
`0`; otherwise the string is split on `:` and `hours * 60 + minutes` is
returned. A missing minutes component yields `NaN` in JavaScript, modelled
here as `0` (no claim exercises such a string). -/
def parseTimeToMinutes (timeStr : Option (List Char)) : Int :=
  match timeStr with
  | none => 0
  | some cs =>
    if cs = [] then 0
    else
      let parts := (splitOnChar ':' cs).map parseNumber
      (parts.getD 0 0 : Int) * 60 + (parts.getD 1 0 : Int)

/-- Model of `padZero(num)`: `num.toString().padStart(2, '0')` for the
natural numbers this code displays. -/
def padZero (n : Nat) : String :=
  if n < 10 then "0" ++ toString n else toString n

/-- Model of `x.toFixed(2)` for a nonnegative currency amount held in whole
cents. The JavaScript code stores dollars as floats (the cart endpoint
returns integer cents divided by 100), so every amount it formats is an
exact multiple of a cent and `toFixed(2)` performs no rounding. -/
def toFixed2 (cents : Int) : String :=
  toString (cents / 100) ++ "." ++ padZero (cents % 100).toNat

-- ============================================================================
-- Base timer handler (timer.js: TimerHandler)
-- ============================================================================

/-- The structured duration returned by `TimerHandler.getTimeRemaining`. -/
structure TimeRemaining where
  total : Int
  days : Int
  hours : Int
  minutes : Int
  seconds : Int
deriving DecidableEq

/-- Model of `TimerHandler.getTimeRemaining()`. The guard `!this.endTime`
is JavaScript truthiness: it fires both when no end-timestamp is stored
(`null`) and when the stored end-timestamp is the number `0`. For a
positive `total` the float expressions
`Math.floor((total / 3600000) % 24)` etc. equal the integer floor-division
and remainder used here. -/
def getTimeRemaining (endTime : Option Int) (now : Int) : Option TimeRemaining :=
  match endTime with
  | none => none
  | some e =>
    if e = 0 then none
    else
      let total := e - now
      if total ≤ 0 then some ⟨0, 0, 0, 0, 0⟩
      else
        some ⟨total, total / 86400000, total / 3600000 % 24,
          total / 60000 % 60, total / 1000 % 60⟩

/-- Model of the base `TimerHandler.isActive()`:
`remaining && remaining.total > 0`. -/
def baseIsActive (endTime : Option Int) (now : Int) : Bool :=
  match getTimeRemaining endTime now with
  | none => false
  | some r => decide (r.total > 0)

-- ============================================================================
-- Evergreen handler (timer.js: EvergreenTimerHandler)
-- ============================================================================

/-- The `{startTime, resetAt}` record persisted in `localStorage` under the
evergreen storage key. -/
structure EvergreenRecord where
  startTime : Int
  resetAt : Option Int
deriving DecidableEq

/-- Model of `EvergreenTimerHandler.setNewStartTime(startTime)`: returns
the new end-timestamp and persists `{startTime, resetAt: null}`. -/
def setNewStartTime (evergreenDuration : Int) (startTime : Int) :
    Option Int × Option EvergreenRecord :=
  (some (startTime + evergreenDuration * 60 * 1000), some ⟨startTime, none⟩)

/-- Model of `EvergreenTimerHandler.calculateEndTime()`. The pair returned
is (the computed end-timestamp or `null`, the stored record after the
call). Truthiness guards: `!this.timer.evergreenDuration` fires on missing
or zero duration, `resetAt && now >= resetAt` requires a nonzero stored
`resetAt`, and `this.timer.evergreenResetDelay || 0` maps a missing delay
to `0`. In the branch that first persists `{startTime, resetAt}` and then
starts a new cycle, the second write wins, as in the source. -/
def egCalculateEndTime (evergreenDuration evergreenResetDelay : Option Int)
    (stored : Option EvergreenRecord) (now : Int) :
    Option Int × Option EvergreenRecord :=
  if evergreenDuration.getD 0 = 0 then (none, stored)
  else
    let dur := evergreenDuration.getD 0
    match stored with
    | none => setNewStartTime dur now
    | some s =>
      if s.resetAt.getD 0 ≠ 0 ∧ now ≥ s.resetAt.getD 0 then setNewStartTime dur now
      else
        let endTime := s.startTime + dur * 60 * 1000
        if now ≥ endTime then
          let resetDelay := evergreenResetDelay.getD 0 * 60 * 1000
          if resetDelay > 0 then
            let resetAt := endTime + resetDelay
            if now < resetAt then (none, some ⟨s.startTime, some resetAt⟩)
            else setNewStartTime dur now
          else setNewStartTime dur now
        else (some endTime, stored)

/-- Model of `EvergreenTimerHandler.isActive()`: recompute the
end-timestamp (with its storage side effect) and delegate to the base
activity check. -/
def egIsActive (evergreenDuration evergreenResetDelay : Option Int)
    (stored : Option EvergreenRecord) (now : Int) : Bool × Option EvergreenRecord :=
  let r := egCalculateEndTime evergreenDuration evergreenResetDelay stored now
  (baseIsActive r.1 now, r.2)

-- ============================================================================
-- Recurring handler (timer.js: RecurringTimerHandler)
-- ============================================================================

/-- Model of `RecurringTimerHandler.calculateEndTime()` after the clock
sample: `currentDay` and `currentMinutes` are the day-of-week and
minute-of-day resolved in the configured time zone, `startMinutes` and
`endMinutes` the parsed `dailyStartTime`/`dailyEndTime`, and
`recurringDays` the parsed active-days list. -/
def recurringCalculateEndTime (recurringDays : List Int)
    (startMinutes endMinutes : Int) (currentDay currentMinutes : Int)
    (now : Int) : Option Int :=
  if recurringDays.contains currentDay = false then none
  else if endMinutes < startMinutes then
    if currentMinutes ≥ startMinutes then
      some (now + (24 * 60 - currentMinutes + endMinutes) * 60 * 1000)
    else if currentMinutes < endMinutes then
      some (now + (endMinutes - currentMinutes) * 60 * 1000)
    else none
  else
    if startMinutes ≤ currentMinutes ∧ currentMinutes < endMinutes then
      some (now + (endMinutes - currentMinutes) * 60 * 1000)
    else none

-- ============================================================================
-- Cart handler (timer.js: CartTimerHandler)
-- ============================================================================

/-- Model of `CartTimerHandler.isActive()`. Currency amounts are in whole
cents; `cartThreshold` is `none` when unconfigured, and the truthiness
guard `this.timer.cartThreshold && …` also ignores a configured threshold
of `0`. `endTime` is whatever end-timestamp the handler holds (the stored
session cycle feeds only this value, which the threshold check
short-circuits). -/
def cartIsActive (onCartPage : Bool) (cartThreshold : Option Int)
    (cartTotal : Int) (endTime : Option Int) (now : Int) : Bool :=
  if onCartPage = false then false
  else if cartThreshold.getD 0 ≠ 0 ∧ cartTotal < cartThreshold.getD 0 then false
  else baseIsActive endTime now

/-- Model of `CartTimerHandler.getDisplayMessage()`. -/
def cartGetDisplayMessage (cartThreshold : Option Int) (cartTotal : Int) :
    Option String :=
  if cartThreshold.getD 0 ≠ 0 ∧ cartTotal < cartThreshold.getD 0 then
    some ("Add $" ++ toFixed2 (cartThreshold.getD 0 - cartTotal) ++ " more to qualify!")
  else none

-- ============================================================================
-- Closed-timer set and the bootstrap filter (timer.js: getClosedTimers,
-- saveClosedTimer, initTimers)
-- ============================================================================

/-- Model of `getClosedTimers()`: the durable map from timer id to close
timestamp is a list of pairs; the result is (the ids returned, the durable
state after the call). The source writes the filtered map back only when
an entry was pruned; either way the durable state after the call equals
the filtered map, which is what the second component records. -/
def getClosedTimers (store : List (String × Int)) (now : Int) :
    List String × List (String × Int) :=
  let filtered := store.filter (fun e => decide (now - e.2 < 24 * 60 * 60 * 1000))
  (filtered.map Prod.fst, filtered)

/-- Model of `saveClosedTimer(timerId)`: `data[timerId] = Date.now()`, an
upsert that leaves one binding for `timerId`. -/
def saveClosedTimer (store : List (String × Int)) (timerId : String)
    (now : Int) : List (String × Int) :=
  store.filter (fun e => decide (e.1 ≠ timerId)) ++ [(timerId, now)]

/-- Outcome of the per-element filter chain in `initTimers()` for one
timer element. -/
inductive BootstrapAction
  | skipNoId
  | hiddenClosed
  | hiddenPage
  | registered
deriving DecidableEq

/-- Model of the per-element decisions of `initTimers()`: skip elements
with no id, hide elements whose id is in the closed-timer list, hide
elements failing page targeting (`shouldShowOnPage`, abstracted as the
boolean `showOnPage`), and register the rest. -/
def bootstrapAction (closedTimers : List String) (timerId : String)
    (showOnPage : Bool) : BootstrapAction :=
  if timerId = "" then BootstrapAction.skipNoId
  else if closedTimers.contains timerId then BootstrapAction.hiddenClosed
  else if showOnPage = false then BootstrapAction.hiddenPage
  else BootstrapAction.registered

-- ============================================================================
-- Analytics delivery (timer.js: sendAnalyticsEvent)
-- ============================================================================

/-- Outcome of one `fetch` of the analytics endpoint. A non-ok response
carries its HTTP status and whether `response.text()` on the error body
resolves (it can reject, e.g. when the connection drops mid-body). -/
inductive FetchOutcome
  | success
  | failure (status : Nat) (bodyReadable : Bool)
  | networkError
deriving DecidableEq

/-- The retry decision `sendAnalyticsEvent` takes after one attempt:
`some d` means a retry is scheduled after `d` milliseconds, `none` means
the attempt is terminal. On a non-ok response the retry is issued inside
`response.text().then(…)`; if reading the error body rejects, the
`.catch` only logs and no retry is scheduled. -/
def retryDelayMs (outcome : FetchOutcome) (retryCount : Nat) : Option Nat :=
  match outcome with
  | FetchOutcome.success => none
  | FetchOutcome.failure status bodyReadable =>
    if bodyReadable then
      if (500 ≤ status ∨ status = 404) ∧ retryCount < 3 then
        some (2 ^ retryCount * 1000)
      else none
    else none
  | FetchOutcome.networkError =>
    if retryCount < 3 then some (2 ^ retryCount * 1000) else none

/-- The attempt chain of one submission: given the outcome of each
successive request, returns (number of requests issued, the backoff delays
slept between consecutive requests). -/
def submissionAttempts : List FetchOutcome → Nat → Nat × List Nat
  | [], _ => (0, [])
  | o :: rest, retryCount =>
    match retryDelayMs o retryCount with
    | none => (1, [])
    | some d =>
      let r := submissionAttempts rest (retryCount + 1)
      (r.1 + 1, d :: r.2)

/-- The two analytics event kinds. -/
inductive EventKind
  | impression
  | click
deriving DecidableEq

/-- Model of the session-storage key
`impression_${timerId}_${window.location.pathname}`. -/
def impressionKey (timerId path : String) : String :=
  "impression_" ++ timerId ++ "_" ++ path

/-- Model of `sendAnalyticsEvent(event, timerId, retryCount)` including its
retry re-entries. `session` is the set of impression marks in
`sessionStorage`; `outcomes` supplies the result of each successive
network request this call chain performs. Returns (session state after the
chain, number of network requests issued by the chain). A missing timer id
(the falsy `!timerId`, i.e. the empty string) sends nothing; an impression
already marked for `(timerId, path)` returns before any request; otherwise
the mark is written before the request is sent, and a scheduled retry
re-enters the function from the top with `retryCount + 1`. -/
def sendAnalyticsEvent (outcomes : List FetchOutcome) (session : List String)
    (ev : EventKind) (timerId path : String) (retryCount : Nat) :
    List String × Nat :=
  if timerId = "" then (session, 0)
  else if ev = EventKind.impression ∧ impressionKey timerId path ∈ session then
    (session, 0)
  else
    let session1 :=
      if ev = EventKind.impression then impressionKey timerId path :: session
      else session
    match outcomes with
    | [] => (session1, 1)
    | o :: rest =>
      match retryDelayMs o retryCount with
      | none => (session1, 1)
      | some _ =>
        let r := sendAnalyticsEvent rest session1 ev timerId path (retryCount + 1)
        (r.1, r.2 + 1)

-- ============================================================================
-- Page targeting (timer.js: matchPage)
-- ============================================================================

/-- Model of the `pageTypes` table in `matchPage`: the named page-type
shortcuts and the path prefix each stands for. Paths and patterns are
lists of characters. -/
def pageTypes (pat : List Char) : Option (List Char) :=
  if pat = "home".data then some "/".data
  else if pat = "collection".data then some "/collections/".data
  else if pat = "product".data then some "/products/".data
  else if pat = "cart".data then some "/cart".data
  else if pat = "checkout".data then some "/checkout".data
  else if pat = "page".data then some "/pages/".data
  else if pat = "blog".data then some "/blogs/".data
  else none

/-- Model of `matchPage(path, pattern)`. -/
def matchPage (path pat : List Char) : Bool :=
  if pat = "*".data ∨ pat = "/".data then true
  else if path = pat then true
  else if pat.getLast? = some '*' then List.isPrefixOf pat.dropLast path
  else
    match pageTypes pat with
    | some pagePath =>
      if pat = "home".data then decide (path = "/".data ∨ path = [])
      else List.isPrefixOf pagePath path
    | none => false

-- ============================================================================
-- Render loop throttle (timer.js: TimerEngine.startCountdown)
-- ============================================================================

/-- Model of the frame callback in `TimerEngine.startCountdown()`: given
the current `lastUpdateTime` and the timestamps of the incoming animation
frames, returns the timestamps of the frames on which `updateAllDisplays`
runs. A frame updates exactly when its timestamp is at least 1000ms past
the timestamp of the last updating frame, and then becomes the new
`lastUpdateTime`. -/
def runCountdownFrames (lastUpdateTime : Int) : List Int → List Int
  | [] => []
  | ts :: rest =>
    if ts - lastUpdateTime ≥ 1000 then ts :: runCountdownFrames ts rest
    else runCountdownFrames lastUpdateTime rest

-- ============================================================================
-- Helper lemmas
-- ============================================================================

lemma isPrefixOf_nil_left (l : List Char) : List.isPrefixOf ([] : List Char) l = true := by
  cases l <;> rfl

lemma dropLast_isPrefixOf (l : List Char) : List.isPrefixOf l.dropLast l = true := by
  induction l with
  | nil => rfl
  | cons a t ih =>
    cases t with
    | nil => rfl
    | cons b t2 =>
      simp only [List.dropLast_cons₂, List.isPrefixOf_cons₂_self]
      exact ih

lemma sendAnalyticsEvent_marked (outcomes : List FetchOutcome) (s : List String)
    (timerId path : String) (rc : Nat) (h : impressionKey timerId path ∈ s) :
    sendAnalyticsEvent outcomes s EventKind.impression timerId path rc = (s, 0) := by
  simp [sendAnalyticsEvent, h]

lemma sendAnalyticsEvent_unmarked (outcomes : List FetchOutcome) (s : List String)
    (timerId path : String) (rc : Nat) (h1 : timerId ≠ "")
    (h2 : impressionKey timerId path ∉ s) :
    sendAnalyticsEvent outcomes s EventKind.impression timerId path rc =
      (impressionKey timerId path :: s, 1) := by
  cases outcomes with
  | nil => simp [sendAnalyticsEvent, h1, h2]
  | cons o rest =>
    cases hr : retryDelayMs o rc with
    | none => simp [sendAnalyticsEvent, h1, h2, hr]
    | some d =>
      have marked := sendAnalyticsEvent_marked rest (impressionKey timerId path :: s)
        timerId path (rc + 1) (List.mem_cons_self _ _)
      simp [sendAnalyticsEvent, h1, h2, hr, marked]

lemma runCountdownFrames_head_ge (frames : List Int) :
    ∀ (lu y : Int), (runCountdownFrames lu frames).head? = some y → lu + 1000 ≤ y := by
  induction frames with
  | nil => intro lu y h; simp [runCountdownFrames] at h
  | cons ts rest ih =>
    intro lu y h
    by_cases hc : ts - lu ≥ 1000
    · rw [runCountdownFrames, if_pos hc] at h
      simp only [List.head?_cons, Option.some.injEq] at h
      omega
    · rw [runCountdownFrames, if_neg hc] at h
      exact ih lu y h

lemma runCountdownFrames_chain (frames : List Int) :
    ∀ lu : Int, List.Chain' (fun a b => a + 1000 ≤ b) (runCountdownFrames lu frames) := by
  induction frames with
  | nil => intro lu; simp [runCountdownFrames]
  | cons ts rest ih =>
    intro lu
    by_cases hc : ts - lu ≥ 1000
    · rw [runCountdownFrames, if_pos hc]
      rw [List.chain'_cons']
      refine ⟨?_, ih ts⟩
      intro y hy
      exact runCountdownFrames_head_ge rest ts y (Option.mem_def.mp hy)
    · rw [runCountdownFrames, if_neg hc]
      exact ih lu

-- ============================================================================
-- C1: TimerHandler.getTimeRemaining
-- ============================================================================

/-- C1 (amended): `getTimeRemaining()` returns `null` when no end-timestamp
is stored, and also when the stored end-timestamp is the falsy number `0`;
when a nonzero end-timestamp is stored and `endTime - now ≤ 0` it returns
the all-zero record; otherwise it returns `total = endTime - now` split
into days/hours/minutes/seconds by floor division, and that split
reconstructs `total` to within one second. -/
theorem getTimeRemaining_spec (e now : Int) :
    getTimeRemaining none now = none ∧
    getTimeRemaining (some 0) now = none ∧
    (e ≠ 0 → e - now ≤ 0 → getTimeRemaining (some e) now = some ⟨0, 0, 0, 0, 0⟩) ∧
    (e ≠ 0 → 0 < e - now →
      getTimeRemaining (some e) now =
        some ⟨e - now, (e - now) / 86400000, (e - now) / 3600000 % 24,
          (e - now) / 60000 % 60, (e - now) / 1000 % 60⟩ ∧
      (e - now) / 86400000 * 86400000 + (e - now) / 3600000 % 24 * 3600000 +
          (e - now) / 60000 % 60 * 60000 + (e - now) / 1000 % 60 * 1000 ≤ e - now ∧
      e - now < (e - now) / 86400000 * 86400000 + (e - now) / 3600000 % 24 * 3600000 +
          (e - now) / 60000 % 60 * 60000 + (e - now) / 1000 % 60 * 1000 + 1000) := by
  refine ⟨rfl, by simp [getTimeRemaining], ?_, ?_⟩
  · intro h1 h2
    simp [getTimeRemaining, h1, h2]
  · intro h1 h2
    have h3 : ¬ (e - now ≤ 0) := by omega
    refine ⟨by simp [getTimeRemaining, h1, h3], by omega, by omega⟩

/-- C1 witness: at `endTime = 90061001` (1 day, 1 hour, 1 minute, 1.001
seconds) and `now = 0` the positive branch applies and the reconstruction
bound holds. -/
theorem getTimeRemaining_spec_witness :
    ((90061001 : Int) ≠ 0 ∧ (0 : Int) < 90061001 - 0) ∧
    (getTimeRemaining (some 90061001) 0 =
        some ⟨(90061001 : Int) - 0, ((90061001 : Int) - 0) / 86400000,
          ((90061001 : Int) - 0) / 3600000 % 24, ((90061001 : Int) - 0) / 60000 % 60,
          ((90061001 : Int) - 0) / 1000 % 60⟩ ∧
      ((90061001 : Int) - 0) / 86400000 * 86400000 +
            ((90061001 : Int) - 0) / 3600000 % 24 * 3600000 +
            ((90061001 : Int) - 0) / 60000 % 60 * 60000 +
            ((90061001 : Int) - 0) / 1000 % 60 * 1000 ≤ (90061001 : Int) - 0 ∧
      (90061001 : Int) - 0 < ((90061001 : Int) - 0) / 86400000 * 86400000 +
            ((90061001 : Int) - 0) / 3600000 % 24 * 3600000 +
            ((90061001 : Int) - 0) / 60000 % 60 * 60000 +
            ((90061001 : Int) - 0) / 1000 % 60 * 1000 + 1000) :=
  ⟨⟨by decide, by decide⟩, (getTimeRemaining_spec 90061001 0).2.2.2 (by decide) (by decide)⟩

/-- C1 counterexample: a stored end-timestamp of `0` (e.g. a fixed end date
of exactly the epoch) with `now = 1000` satisfies `endTime - now ≤ 0`, but
the code returns `null` via the truthiness guard `!this.endTime`, not the
all-zero record the claim requires. -/
theorem getTimeRemaining_zero_end_counterexample :
    getTimeRemaining (some 0) 1000 = none ∧
    getTimeRemaining (some 0) 1000 ≠ some ⟨0, 0, 0, 0, 0⟩ ∧
    (0 : Int) - 1000 ≤ 0 := by
  decide

-- ============================================================================
-- C9: TimerEngine.startCountdown throttling
-- ============================================================================

/-- C9: in the render loop, a frame runs the display update exactly when
its timestamp is at least 1000ms past the timestamp of the last updating
frame, so the timestamps of consecutive updating frames differ by at least
1000ms. -/
theorem countdown_throttle_spec (lastUpdateTime : Int) (frames : List Int) :
    List.Chain' (fun a b => a + 1000 ≤ b) (runCountdownFrames lastUpdateTime frames) ∧
    (∀ (ts : Int) (rest : List Int),
      runCountdownFrames lastUpdateTime (ts :: rest) =
        if ts - lastUpdateTime ≥ 1000 then ts :: runCountdownFrames ts rest
        else runCountdownFrames lastUpdateTime rest) :=
  ⟨runCountdownFrames_chain frames lastUpdateTime, fun _ _ => rfl⟩

-- ============================================================================
-- C10: at most one impression request per (timerId, path) per session
-- ============================================================================

/-- C10: a `sendAnalyticsEvent` impression call chain issues at most one
network request in total, retries included, from any starting session
state; and from a session state that already holds the mark for
`(timerId, path)` it issues none, because every re-entry re-checks the
mark at the top. -/
theorem impression_at_most_one_request (outcomes : List FetchOutcome)
    (session : List String) (timerId path : String) (retryCount : Nat) :
    (sendAnalyticsEvent outcomes session EventKind.impression timerId path retryCount).2 ≤ 1 ∧
    (sendAnalyticsEvent outcomes (impressionKey timerId path :: session)
        EventKind.impression timerId path retryCount).2 = 0 := by
  constructor
  · by_cases h0 : timerId = ""
    · simp [sendAnalyticsEvent, h0]
    · by_cases hm : impressionKey timerId path ∈ session
      · simp [sendAnalyticsEvent_marked _ _ _ _ _ hm]
      · cases outcomes with
        | nil => simp [sendAnalyticsEvent, h0, hm]
        | cons o rest =>
          cases hr : retryDelayMs o retryCount with
          | none => simp [sendAnalyticsEvent, h0, hm, hr]
          | some d =>
            have marked := sendAnalyticsEvent_marked rest
              (impressionKey timerId path :: session) timerId path (retryCount + 1)
              (List.mem_cons_self _ _)
            simp [sendAnalyticsEvent, h0, hm, hr, marked]
  · simp [sendAnalyticsEvent_marked _ _ _ _ _ (List.mem_cons_self _ _)]

-- ============================================================================
-- C3: impression deduplication across top-level calls
-- ============================================================================

/-- C3: for a nonempty timer id and a session with no mark for
`(timerId, path)`: an already-marked call returns without any request; the
first top-level impression call writes the mark and issues exactly one
request whatever the network outcomes are; the second top-level call finds
the mark and issues none; so the two calls together issue exactly one
submission. -/
theorem impression_dedup_spec (session : List String) (timerId path : String)
    (o1 o2 : List FetchOutcome) (h1 : timerId ≠ "")
    (h2 : impressionKey timerId path ∉ session) :
    (∀ (outcomes : List FetchOutcome) (s : List String) (rc : Nat),
        impressionKey timerId path ∈ s →
        sendAnalyticsEvent outcomes s EventKind.impression timerId path rc = (s, 0)) ∧
    sendAnalyticsEvent o1 session EventKind.impression timerId path 0 =
      (impressionKey timerId path :: session, 1) ∧
    sendAnalyticsEvent o2
        (sendAnalyticsEvent o1 session EventKind.impression timerId path 0).1
        EventKind.impression timerId path 0 =
      ((sendAnalyticsEvent o1 session EventKind.impression timerId path 0).1, 0) ∧
    (sendAnalyticsEvent o1 session EventKind.impression timerId path 0).2 +
      (sendAnalyticsEvent o2
          (sendAnalyticsEvent o1 session EventKind.impression timerId path 0).1
          EventKind.impression timerId path 0).2 = 1 := by
  have hfirst := sendAnalyticsEvent_unmarked o1 session timerId path 0 h1 h2
  have hsecond := sendAnalyticsEvent_marked o2 (impressionKey timerId path :: session)
    timerId path 0 (List.mem_cons_self _ _)
  refine ⟨fun outcomes s rc h => sendAnalyticsEvent_marked outcomes s timerId path rc h,
    hfirst, ?_, ?_⟩
  · rw [hfirst]
    exact hsecond
  · rw [hfirst, hsecond]
    rfl

/-- C3 witness: timer id "t1" on path "/" in a fresh session; the first
call (whose request hits a network error) sends once, the second sends
nothing. -/
theorem impression_dedup_spec_witness :
    ("t1" ≠ "" ∧ impressionKey "t1" "/" ∉ ([] : List String)) ∧
    sendAnalyticsEvent [FetchOutcome.networkError] [] EventKind.impression "t1" "/" 0 =
      (impressionKey "t1" "/" :: [], 1) ∧
    (sendAnalyticsEvent [FetchOutcome.networkError] [] EventKind.impression "t1" "/" 0).2 +
      (sendAnalyticsEvent []
          (sendAnalyticsEvent [FetchOutcome.networkError] [] EventKind.impression "t1" "/" 0).1
          EventKind.impression "t1" "/" 0).2 = 1 :=
  ⟨⟨by decide, by decide⟩,
    (impression_dedup_spec [] "t1" "/" [FetchOutcome.networkError] [] (by decide)
        (by decide)).2.1,
    (impression_dedup_spec [] "t1" "/" [FetchOutcome.networkError] [] (by decide)
        (by decide)).2.2.2⟩

-- ============================================================================
-- C2: analytics retry/backoff policy
-- ============================================================================

/-- C2 (amended): a retry is scheduled exactly when the attempt ended in a
network-level failure, or in a response with status ≥ 500 or status 404
whose error body could be read, and in either case `retryCount < 3`; the
delay is `2 ^ retryCount` seconds; the attempt with `retryCount = 3` never
schedules a retry; and a submission receiving four consecutive readable
503 responses makes four attempts with delays of 1s, 2s and 4s between
them. -/
theorem retryPolicy_spec :
    (∀ (o : FetchOutcome) (rc : Nat),
        (retryDelayMs o rc).isSome = true ↔
          ((∃ status, o = FetchOutcome.failure status true ∧
              (500 ≤ status ∨ status = 404)) ∨
            o = FetchOutcome.networkError) ∧ rc < 3) ∧
    (∀ (o : FetchOutcome) (rc d : Nat), retryDelayMs o rc = some d → d = 2 ^ rc * 1000) ∧
    (∀ o : FetchOutcome, retryDelayMs o 3 = none) ∧
    submissionAttempts
        [FetchOutcome.failure 503 true, FetchOutcome.failure 503 true,
          FetchOutcome.failure 503 true, FetchOutcome.failure 503 true] 0 =
      (4, [1000, 2000, 4000]) := by
  refine ⟨?_, ?_, ?_, by decide⟩
  · intro o rc
    cases o with
    | success => simp [retryDelayMs]
    | failure status b =>
      cases b with
      | false => simp [retryDelayMs]
      | true =>
        have heq : retryDelayMs (FetchOutcome.failure status true) rc =
            if (500 ≤ status ∨ status = 404) ∧ rc < 3 then some (2 ^ rc * 1000)
            else none := rfl
        rw [heq]
        by_cases hc : (500 ≤ status ∨ status = 404) ∧ rc < 3
        · rw [if_pos hc]
          simp only [Option.isSome_some, true_iff]
          exact ⟨Or.inl ⟨status, rfl, hc.1⟩, hc.2⟩
        · rw [if_neg hc]
          simp only [Option.isSome_none]
          refine iff_of_false (by simp) ?_
          rintro ⟨⟨st, hst, hor⟩ | hnet, hrc⟩
          · obtain ⟨rfl, -⟩ := (FetchOutcome.failure.injEq _ _ _ _).mp hst
            exact hc ⟨hor, hrc⟩
          · exact FetchOutcome.noConfusion hnet
    | networkError =>
      by_cases hc : rc < 3
      · simp [retryDelayMs, hc]
      · simp [retryDelayMs, hc]
  · intro o rc d h
    cases o with
    | success => simp [retryDelayMs] at h
    | failure status b =>
      cases b with
      | false => simp [retryDelayMs] at h
      | true =>
        simp only [retryDelayMs, if_true] at h
        by_cases hc : (500 ≤ status ∨ status = 404) ∧ rc < 3
        · rw [if_pos hc] at h
          exact (Option.some.injEq _ _ ▸ h).symm
        · rw [if_neg hc] at h
          exact absurd h (by simp)
    | networkError =>
      by_cases hc : rc < 3
      · simp only [retryDelayMs, if_pos hc, Option.some.injEq] at h
        exact h.symm
      · simp [retryDelayMs, hc] at h
  · intro o
    cases o <;> simp [retryDelayMs]

/-- C2 witness: a readable 503 response at attempt 0 schedules a retry
after `2 ^ 0 * 1000` milliseconds. -/
theorem retryPolicy_spec_witness :
    retryDelayMs (FetchOutcome.failure 503 true) 0 = some 1000 ∧ 1000 = 2 ^ 0 * 1000 :=
  ⟨by decide, retryPolicy_spec.2.1 (FetchOutcome.failure 503 true) 0 1000 (by decide)⟩

/-- C2 counterexample: a 503 response (status ≥ 500) at attempt 0
(retryCount < 3) whose error body cannot be read schedules no retry — the
retry lives inside `response.text().then(…)` and the read failure lands in
a `.catch` that only logs — so the claim's "exactly when" biconditional
fails. -/
theorem retryPolicy_unreadable_body_counterexample :
    retryDelayMs (FetchOutcome.failure 503 false) 0 = none ∧ 500 ≤ 503 ∧ 0 < 3 := by
  decide

-- ============================================================================
-- C4: evergreen rollover at the exact end of a cycle
-- ============================================================================

/-- C4 (amended): with duration 10 minutes and no reset delay, a cycle
started at `t0` ends at `t0 + 600000`; at wall-clock time exactly
`t0 + 600000`, `isActive()` recomputes the end-timestamp, which itself
starts a fresh cycle ending at `t0 + 1200000` — strictly later than the
first cycle's end — and therefore returns `true`, not `false`. -/
theorem evergreen_rollover_spec (t0 : Int) (h : 0 ≤ t0) :
    egCalculateEndTime (some 10) none none t0 = (some (t0 + 600000), some ⟨t0, none⟩) ∧
    egCalculateEndTime (some 10) none (some ⟨t0, none⟩) (t0 + 600000) =
      (some (t0 + 1200000), some ⟨t0 + 600000, none⟩) ∧
    (egIsActive (some 10) none (some ⟨t0, none⟩) (t0 + 600000)).1 = true ∧
    t0 + 600000 < t0 + 1200000 := by
  have e2 : egCalculateEndTime (some 10) none (some ⟨t0, none⟩) (t0 + 600000) =
      (some (t0 + 1200000), some ⟨t0 + 600000, none⟩) := by
    have hge : t0 + 600000 ≥ t0 + 10 * 60 * 1000 := by omega
    simp [egCalculateEndTime, setNewStartTime, hge]
    omega
  refine ⟨by norm_num [egCalculateEndTime, setNewStartTime], e2, ?_, by omega⟩
  have hb : baseIsActive (some (t0 + 1200000)) (t0 + 600000) = true := by
    have hne : t0 + 1200000 ≠ 0 := by omega
    have hpos : ¬ (t0 + 1200000 - (t0 + 600000) ≤ 0) := by omega
    simp [baseIsActive, getTimeRemaining, hne, hpos]
  simp [egIsActive, e2, hb]

/-- C4 witness: the amended behaviour at the concrete start time 0. -/
theorem evergreen_rollover_spec_witness :
    (0 : Int) ≤ 0 ∧
    (egIsActive (some 10) none (some ⟨0, none⟩) ((0 : Int) + 600000)).1 = true :=
  ⟨by decide, (evergreen_rollover_spec 0 (by decide)).2.2.1⟩

/-- C4 counterexample: a cycle started at `t0 = 0` (storing
`{startTime: 0, resetAt: null}` and ending at 600000); at wall-clock time
exactly 600000, `isActive()` returns `true`, not `false` as the claim
states, because `calculateEndTime()` starts the fresh cycle within that
very call. -/
theorem evergreen_rollover_counterexample :
    egCalculateEndTime (some 10) none none 0 = (some 600000, some ⟨0, none⟩) ∧
    (egIsActive (some 10) none (some ⟨0, none⟩) 600000).1 = true := by
  decide

-- ============================================================================
-- C5: recurring overnight window
-- ============================================================================

/-- C5: for a recurring timer whose end minute is strictly below its start
minute, on a day in the active-days set the handler is active exactly when
the current minute-of-day is at least the start minute or below the end
minute; the minutes-until-end are `(24*60 - current) + end` in the former
case and `end - current` in the latter; the end-timestamp is
`now + minutesUntilEnd * 60000`; and with start "22:00" (1320) and end
"06:00" (360): active at 23:30 with 390 minutes left, active at 05:00 with
60 minutes left, inactive at 12:00. -/
theorem recurring_overnight_spec :
    (∀ (recurringDays : List Int) (startMinutes endMinutes : Int)
        (currentDay currentMinutes now : Int),
        recurringDays.contains currentDay = true →
        endMinutes < startMinutes →
        (recurringCalculateEndTime recurringDays startMinutes endMinutes currentDay
            currentMinutes now =
          if currentMinutes ≥ startMinutes then
            some (now + (24 * 60 - currentMinutes + endMinutes) * 60 * 1000)
          else if currentMinutes < endMinutes then
            some (now + (endMinutes - currentMinutes) * 60 * 1000)
          else none) ∧
        ((recurringCalculateEndTime recurringDays startMinutes endMinutes currentDay
              currentMinutes now).isSome = true ↔
          (currentMinutes ≥ startMinutes ∨ currentMinutes < endMinutes))) ∧
    parseTimeToMinutes (some "22:00".data) = 1320 ∧
    parseTimeToMinutes (some "06:00".data) = 360 ∧
    (∀ now : Int,
      recurringCalculateEndTime [0, 1, 2, 3, 4, 5, 6] 1320 360 3 1410 now =
          some (now + 390 * 60 * 1000) ∧
      recurringCalculateEndTime [0, 1, 2, 3, 4, 5, 6] 1320 360 3 300 now =
          some (now + 60 * 60 * 1000) ∧
      recurringCalculateEndTime [0, 1, 2, 3, 4, 5, 6] 1320 360 3 720 now = none) := by
  have hmem : (([0, 1, 2, 3, 4, 5, 6] : List Int).contains 3) = true := by decide
  refine ⟨?_, by decide, by decide, ?_⟩
  · intro recurringDays startMinutes endMinutes currentDay currentMinutes now hdays hover
    constructor
    · simp only [recurringCalculateEndTime, hdays, Bool.true_eq_false, if_false,
        if_pos hover]
    · simp only [recurringCalculateEndTime, hdays, Bool.true_eq_false, if_false,
        if_pos hover]
      by_cases h1 : currentMinutes ≥ startMinutes
      · simp [h1]
      · by_cases h2 : currentMinutes < endMinutes
        · simp [h1, h2]
        · simp [h1, h2]
  · intro now
    refine ⟨?_, ?_, ?_⟩
    · norm_num [recurringCalculateEndTime, hmem]
    · norm_num [recurringCalculateEndTime, hmem]
    · norm_num [recurringCalculateEndTime, hmem]

/-- C5 witness: the general overnight characterization applied at the
concrete 23:30 instance (day 3, all days active, start 1320, end 360). -/
theorem recurring_overnight_spec_witness :
    ((([0, 1, 2, 3, 4, 5, 6] : List Int).contains 3) = true ∧ (360 : Int) < 1320) ∧
    ((recurringCalculateEndTime [0, 1, 2, 3, 4, 5, 6] 1320 360 3 1410 0 =
        if (1410 : Int) ≥ 1320 then some ((0 : Int) + (24 * 60 - 1410 + 360) * 60 * 1000)
        else if (1410 : Int) < 360 then some ((0 : Int) + (360 - 1410) * 60 * 1000)
        else none) ∧
      ((recurringCalculateEndTime [0, 1, 2, 3, 4, 5, 6] 1320 360 3 1410 0).isSome = true ↔
        ((1410 : Int) ≥ 1320 ∨ (1410 : Int) < 360))) :=
  ⟨⟨by decide, by decide⟩,
    recurring_overnight_spec.1 [0, 1, 2, 3, 4, 5, 6] 1320 360 3 1410 0 (by decide)
      (by decide)⟩

-- ============================================================================
-- C6: cart threshold gating and shortfall message
-- ============================================================================

/-- C6: with a configured nonzero subtotal threshold and a cart subtotal
strictly below it, `isActive()` is false whatever end-timestamp any stored
session cycle produced, and `getDisplayMessage()` is "Add $" followed by
the shortfall formatted to two decimal places followed by
" more to qualify!"; with threshold $50.00 and subtotal $35.00 the message
is exactly "Add $15.00 more to qualify!". -/
theorem cart_threshold_spec (threshold cartTotal : Int) (onCartPage : Bool)
    (endTime : Option Int) (now : Int) (h1 : threshold ≠ 0)
    (h2 : cartTotal < threshold) :
    cartIsActive onCartPage (some threshold) cartTotal endTime now = false ∧
    cartGetDisplayMessage (some threshold) cartTotal =
      some ("Add $" ++ toFixed2 (threshold - cartTotal) ++ " more to qualify!") ∧
    (∀ f : Nat, f < 100 → (padZero f).length = 2) ∧
    cartGetDisplayMessage (some 5000) 3500 = some "Add $15.00 more to qualify!" ∧
    cartIsActive true (some 5000) 3500 endTime now = false := by
  refine ⟨?_, ?_, by decide, by decide, ?_⟩
  · cases onCartPage with
    | false => rfl
    | true => simp [cartIsActive, h1, h2]
  · simp [cartGetDisplayMessage, h1, h2]
  · have hc : (5000 : Int) ≠ 0 ∧ (3500 : Int) < 5000 := by decide
    simp [cartIsActive, hc.1, hc.2]

/-- C6 witness: threshold 5000 cents, subtotal 3500 cents, on the cart
page with an arbitrary stored-cycle end-timestamp. -/
theorem cart_threshold_spec_witness :
    ((5000 : Int) ≠ 0 ∧ (3500 : Int) < 5000) ∧
    cartIsActive true (some 5000) 3500 (some 999999999) 0 = false ∧
    cartGetDisplayMessage (some 5000) 3500 =
      some ("Add $" ++ toFixed2 ((5000 : Int) - 3500) ++ " more to qualify!") :=
  ⟨⟨by decide, by decide⟩,
    (cart_threshold_spec 5000 3500 true (some 999999999) 0 (by decide) (by decide)).1,
    (cart_threshold_spec 5000 3500 true (some 999999999) 0 (by decide) (by decide)).2.1⟩

-- ============================================================================
-- C7: closed-timer pruning and bootstrap suppression
-- ============================================================================

/-- C7: every read of the closed-timer set prunes it — `getClosedTimers()`
returns exactly the ids whose close timestamp is strictly younger than 24
hours, the durable store keeps exactly the entries strictly younger than
24 hours, an id in the returned list is never registered by bootstrap, and
a timer closed at time `t` is hidden by a bootstrap run with
`now - t < 24h` and no longer suppressed by a run with `now - t ≥ 24h`. -/
theorem closedTimers_spec (store : List (String × Int)) (now t : Int)
    (timerId : String) (showOnPage : Bool) (hid : timerId ≠ "") :
    (∀ id : String, id ∈ (getClosedTimers store now).1 ↔
        ∃ ts, (id, ts) ∈ store ∧ now - ts < 24 * 60 * 60 * 1000) ∧
    (∀ e : String × Int, e ∈ (getClosedTimers store now).2 ↔
        e ∈ store ∧ now - e.2 < 24 * 60 * 60 * 1000) ∧
    (∀ (closed : List String) (id : String) (sp : Bool),
        closed.contains id = true →
        bootstrapAction closed id sp ≠ BootstrapAction.registered) ∧
    (now - t < 24 * 60 * 60 * 1000 →
      bootstrapAction (getClosedTimers (saveClosedTimer store timerId t) now).1 timerId
          showOnPage = BootstrapAction.hiddenClosed) ∧
    (24 * 60 * 60 * 1000 ≤ now - t →
      timerId ∉ (getClosedTimers (saveClosedTimer store timerId t) now).1) := by
  refine ⟨?_, ?_, ?_, ?_, ?_⟩
  · intro id
    simp [getClosedTimers]
  · intro e
    simp [getClosedTimers, List.mem_filter]
  · intro closed id sp hc
    simp only [bootstrapAction, hc, if_true]
    split_ifs <;> decide
  · intro hlt
    have hmem : timerId ∈ (getClosedTimers (saveClosedTimer store timerId t) now).1 := by
      simp only [getClosedTimers, saveClosedTimer]
      refine List.mem_map.mpr ⟨(timerId, t), ?_, rfl⟩
      refine List.mem_filter.mpr ⟨List.mem_append_right _ (by simp), by simpa using hlt⟩
    simp [bootstrapAction, hid, hmem]
  · intro hge hmem
    simp only [getClosedTimers, saveClosedTimer, List.mem_map] at hmem
    obtain ⟨e, he, heq⟩ := hmem
    rw [List.mem_filter] at he
    obtain ⟨hin, hcond⟩ := he
    rw [List.mem_append] at hin
    rcases hin with hin | hin
    · rw [List.mem_filter] at hin
      have hne : e.1 ≠ timerId := by simpa using hin.2
      exact hne heq
    · have he2 : e = (timerId, t) := by simpa using hin
      subst he2
      have : now - t < 24 * 60 * 60 * 1000 := by simpa using hcond
      omega

/-- C7 witness: a timer closed at time 0 is hidden (not registered) by a
bootstrap run at time 1000. -/
theorem closedTimers_spec_witness :
    ("t1" ≠ "" ∧ (1000 : Int) - 0 < 24 * 60 * 60 * 1000) ∧
    bootstrapAction (getClosedTimers (saveClosedTimer [] "t1" 0) 1000).1 "t1" true =
      BootstrapAction.hiddenClosed :=
  ⟨⟨by decide, by decide⟩,
    (closedTimers_spec [] 1000 0 "t1" true (by decide)).2.2.2.1 (by decide)⟩

-- ============================================================================
-- C8: page-pattern matching
-- ============================================================================

/-- C8 (amended): a pattern ending in '*' matches exactly the paths that
start with the pattern minus its final '*'; "/collections/*" matches
"/collections/sale" and not "/collection-info"; and the named pattern
"home" matches exactly the paths "/", "" and — via the exact-match rule
that runs before the named-pattern table — the literal path "home". -/
theorem matchPage_spec (path pat : List Char) (hstar : pat.getLast? = some '*') :
    matchPage path pat = List.isPrefixOf pat.dropLast path ∧
    matchPage "/collections/sale".data "/collections/*".data = true ∧
    matchPage "/collection-info".data "/collections/*".data = false ∧
    (∀ p : List Char, matchPage p "home".data = true ↔
        (p = "/".data ∨ p = [] ∨ p = "home".data)) := by
  refine ⟨?_, by decide, by decide, ?_⟩
  · rw [matchPage]
    by_cases h1 : pat = "*".data ∨ pat = "/".data
    · rw [if_pos h1]
      rcases h1 with rfl | rfl
      · rw [show (("*".data : List Char)).dropLast = [] from by decide]
        exact (isPrefixOf_nil_left path).symm
      · exact absurd hstar (by decide)
    · rw [if_neg h1]
      by_cases h2 : path = pat
      · rw [if_pos h2]
        subst h2
        exact (dropLast_isPrefixOf path).symm
      · rw [if_neg h2, if_pos hstar]
  · intro p
    rw [matchPage]
    have hn1 : ¬(("home".data : List Char) = "*".data ∨ ("home".data : List Char) = "/".data) := by
      decide
    rw [if_neg hn1]
    by_cases h2 : p = "home".data
    · rw [if_pos h2]
      simp [h2]
    · rw [if_neg h2]
      have hn3 : ¬((("home".data : List Char)).getLast? = some '*') := by decide
      rw [if_neg hn3]
      have hpt : pageTypes "home".data = some "/".data := by decide
      rw [hpt]
      have hhome : (("home".data : List Char)) = "home".data := rfl
      simp [h2]

/-- C8 witness: the wildcard characterization applied to the pattern
"/collections/*" and the path "/collections/sale". -/
theorem matchPage_spec_witness :
    (("/collections/*".data : List Char).getLast? = some '*') ∧
    matchPage "/collections/sale".data "/collections/*".data =
      List.isPrefixOf ("/collections/*".data : List Char).dropLast
        "/collections/sale".data :=
  ⟨by decide,
    (matchPage_spec "/collections/sale".data "/collections/*".data (by decide)).1⟩

/-- C8 counterexample: the literal path "home" is matched by the pattern
"home" through the exact-match rule, although it is neither "/" nor the
empty path, so "home" does not match only "/" and "". -/
theorem matchPage_home_counterexample :
    matchPage "home".data "home".data = true ∧
    ("home".data : List Char) ≠ "/".data ∧
    ("home".data : List Char) ≠ ([] : List Char) := by
  decide
